import Mathlib

/-!
Shallow embedding of the GBD block device (gbd.py) for verification.

The remote object store (Google Drive in the source) is modelled as a list
of objects with numeric ids; every remote call of the source becomes a pure
state-passing function.  Python exceptions are modelled by `PyErr`; the
error kinds of the spec map onto them as follows: `AmbiguousState`,
`VersionMismatch` and `SizeMismatch` are raised in the source as
`AssertionError`, `AlreadyMapped` as `ValueError`.  The code targets
Python 2 (`xrange`, `raw_input`), so `/` on integers is floor division.
-/

set_option autoImplicit false

namespace GBDSpec

/-- Python exception classes raised by the code paths under study.
`http status reason` stands for `apierrors.HttpError` with the given
response status and the JSON error reason string. -/
inductive PyErr
  | http (status : Nat) (reason : String)
  | assertionError
  | valueError
  | indexError
  | zeroDivisionError
deriving Repr, DecidableEq

/-- Embeds the rate-limit test of gbd.py lines 59-61: an `HttpError` with
response status 403 whose first error reason is `rateLimitExceeded` or
`userRateLimitExceeded`. -/
def is_rate_limited : PyErr → Bool
  | .http status reason =>
      status == 403 && (reason == "rateLimitExceeded" || reason == "userRateLimitExceeded")
  | _ => false

/-- Outcome of one attempt of the block operation inside `do_request`:
either it returns a value or it raises a Python exception. -/
inductive Attempt (V : Type)
  | success (v : V)
  | raised (e : PyErr)
deriving Repr, DecidableEq

/-- Embeds the retry loop of `GBDWorker.do_request` (gbd.py lines 51-65)
over the remaining iteration indices of `for rnd in xrange(5)`.  The block
operation is abstracted as an oracle `outs` from the attempt index to its
outcome.  A rate-limited attempt continues the loop; any other exception is
re-raised; falling off the end of the loop returns Python `None`, modelled
as `.ok none`. -/
def do_request_go {V : Type} (outs : Nat → Attempt V) : List Nat → Except PyErr (Option V)
  | [] => .ok none
  | rnd :: rest =>
      match outs rnd with
      | .success v => .ok (some v)
      | .raised e => if is_rate_limited e then do_request_go outs rest else .error e

/-- `GBDWorker.do_request`: run the retry loop for `rnd = 0, 1, 2, 3, 4`. -/
def do_request {V : Type} (outs : Nat → Attempt V) : Except PyErr (Option V) :=
  do_request_go outs [0, 1, 2, 3, 4]

/-- Number of attempts (oracle invocations) the retry loop performs on the
given iteration indices. -/
def attempts_go {V : Type} (outs : Nat → Attempt V) : List Nat → Nat
  | [] => 0
  | rnd :: rest =>
      match outs rnd with
      | .success _ => 1
      | .raised e => if is_rate_limited e then 1 + attempts_go outs rest else 1

/-- Total number of attempts performed by `do_request`. -/
def attempts {V : Type} (outs : Nat → Attempt V) : Nat :=
  attempts_go outs [0, 1, 2, 3, 4]

/-- Embeds the delivery to the completion sink in `GBDWorker.run`
(gbd.py lines 36-45): `err, ret = None, None`; `ret = do_request(...)` or
`err = e` on exception; then `cb(err, ret)`.  Returns the `(err, ret)` pair
handed to the callback. -/
def worker_deliver {V : Type} (outs : Nat → Attempt V) : Option PyErr × Option V :=
  match do_request outs with
  | .error e => (some e, none)
  | .ok r => (none, r)

/-- Embeds the backoff delay of gbd.py line 63:
`time.sleep((2 ** rnd) + random.randint(0, 999) / 1000)` where `r` is the
value drawn by `random.randint(0, 999)`.  Under Python 2, `r / 1000` is
integer floor division, so the whole expression is a whole number of
seconds, modelled as `Nat`. -/
def backoff_delay (rnd r : Nat) : Nat :=
  2 ^ rnd + r / 1000

/-! ## Remote store model -/

/-- A remote object: numeric id, title (Drive file title) and content
bytes. -/
structure RObj where
  id : Nat
  title : String
  content : List Nat
deriving Repr, DecidableEq

/-- The remote store: the objects inside the device data folder, plus a
fresh-id counter used by object creation. -/
structure Store where
  objs : List RObj
  nextId : Nat
deriving Repr, DecidableEq

/-- Embeds `drive.children().list(folderId=..., q="title='...'")`: the
objects of the data folder whose title equals `t`. -/
def listByTitle (s : Store) (t : String) : List RObj :=
  s.objs.filter (fun o => o.title == t)

/-- Embeds `drive.files().get_media(fileId=fid)`: content of the object
with id `fid`, or `none` when no such object exists (HttpError 404 in the
source). -/
def getMedia (s : Store) (fid : Nat) : Option (List Nat) :=
  (s.objs.find? (fun o => o.id == fid)).map RObj.content

/-- Embeds `drive.files().insert(body, media_body)`: create a new object
with a fresh id; returns the new id and the updated store. -/
def insertObj (s : Store) (title : String) (content : List Nat) : Nat × Store :=
  (s.nextId,
   { objs := s.objs ++ [{ id := s.nextId, title := title, content := content }],
     nextId := s.nextId + 1 })

/-- Embeds `drive.files().update(fileId=fid, media_body=...)`: replace the
content of the object with id `fid`; `none` when no such object exists. -/
def updateObj (s : Store) (fid : Nat) (content : List Nat) : Option Store :=
  if s.objs.any (fun o => o.id == fid) then
    some { s with objs := s.objs.map (fun o =>
            if o.id == fid then { o with content := content } else o) }
  else none

/-! ## Device state -/

/-- The mutable state of a `GBD` instance that the studied code paths
touch: geometry, the lazy block mapping table (`self.mapping`), the remote
store, an instrumentation counter of remote listing lookups made by
`block_id`, and the pending work queue (index, payload) where payload
`none` means a read.  Sizes and indices are `Int`, as Python integers. -/
structure GBDState where
  block_size : Int
  block_count : Int
  mapping : List (Option Nat)
  store : Store
  lookups : Nat
  que : List (Int × Option (List Nat))
deriving Repr, DecidableEq

/-- Embeds `GBD.idx_to_name`: deterministic block object title. -/
def idx_to_name (idx : Nat) : String :=
  "gbd_b" ++ toString idx

/-- Embeds `GBD.block_id` (gbd.py lines 261-272).  Bounds are checked
first (`IndexError`); a cached mapping is returned without a remote call;
otherwise the store is queried by the block title (bumping `lookups`):
exactly one match caches and returns its id, zero matches returns `none`
leaving the slot unchanged, and more than one fails the
`assert len(results) == 0` (`AssertionError`, the spec's
`AmbiguousState`). -/
def block_id (g : GBDState) (idx : Int) : Except PyErr (Option Nat) × GBDState :=
  if g.block_count ≤ idx ∨ idx < 0 then (.error .indexError, g)
  else
    match g.mapping.getD idx.toNat none with
    | some bid => (.ok (some bid), g)
    | none =>
      let g1 : GBDState := { g with lookups := g.lookups + 1 }
      match listByTitle g.store (idx_to_name idx.toNat) with
      | [o] => (.ok (some o.id), { g1 with mapping := g1.mapping.set idx.toNat (some o.id) })
      | [] => (.ok none, g1)
      | _ => (.error .assertionError, g1)

/-- Embeds `GBD.new_block` (gbd.py lines 274-296): bounds check
(`ValueError`), non-empty-mapping check (`ValueError`), payload length
check (`AssertionError`), default all-zero payload, then object creation
and mapping update.  Returns the created object id. -/
def new_block (g : GBDState) (idx : Int) (data : Option (List Nat)) :
    Except PyErr Nat × GBDState :=
  if g.block_count ≤ idx ∨ idx < 0 then (.error .valueError, g)
  else if (g.mapping.getD idx.toNat none).isSome then (.error .valueError, g)
  else
    match data with
    | some d =>
      if (d.length : Int) = g.block_size then
        let r := insertObj g.store (idx_to_name idx.toNat) d
        (.ok r.1, { g with store := r.2, mapping := g.mapping.set idx.toNat (some r.1) })
      else (.error .assertionError, g)
    | none =>
      let r := insertObj g.store (idx_to_name idx.toNat)
                 (List.replicate g.block_size.toNat 0)
      (.ok r.1, { g with store := r.2, mapping := g.mapping.set idx.toNat (some r.1) })

/-- Embeds `GBDWorker.read_block` (gbd.py lines 67-74): resolve the block;
unmapped reads as `block_size` zero bytes with no further remote call;
mapped fetches the object content and asserts its length equals
`block_size`. -/
def wread_block (g : GBDState) (idx : Int) : Except PyErr (List Nat) × GBDState :=
  match block_id g idx with
  | (.error e, g1) => (.error e, g1)
  | (.ok none, g1) => (.ok (List.replicate g1.block_size.toNat 0), g1)
  | (.ok (some bid), g1) =>
    match getMedia g1.store bid with
    | none => (.error (.http 404 "notFound"), g1)
    | some content =>
      if (content.length : Int) = g1.block_size then (.ok content, g1)
      else (.error .assertionError, g1)

/-- Embeds `GBDWorker.write_block` (gbd.py lines 76-83): assert payload
length, resolve the block; unmapped delegates to `new_block`; mapped
updates the existing object in place.  Returns the id of the written
object. -/
def wwrite_block (g : GBDState) (idx : Int) (data : List Nat) :
    Except PyErr Nat × GBDState :=
  if (data.length : Int) = g.block_size then
    match block_id g idx with
    | (.error e, g1) => (.error e, g1)
    | (.ok none, g1) => new_block g1 idx (some data)
    | (.ok (some bid), g1) =>
      match updateObj g1.store bid data with
      | none => (.error (.http 404 "notFound"), g1)
      | some s2 => (.ok bid, { g1 with store := s2 })
  else (.error .assertionError, g)

/-- Embeds the validation and enqueue of `GBD.read_block`
(gbd.py lines 231-236): `assert 0 <= idx < self.block_count`, then the
work item is enqueued (both the callback path and the synchronous
`sync_io` path enqueue after the assertion). -/
def gbd_read_block (g : GBDState) (idx : Int) : Except PyErr Unit × GBDState :=
  if 0 ≤ idx ∧ idx < g.block_count then
    (.ok (), { g with que := g.que ++ [(idx, none)] })
  else (.error .assertionError, g)

/-- Embeds the validation and enqueue of `GBD.write_block`
(gbd.py lines 238-244): bounds assertion, then
`assert data and len(data) == self.block_size` (truthiness of a Python
string means non-empty), then enqueue. -/
def gbd_write_block (g : GBDState) (idx : Int) (data : List Nat) :
    Except PyErr Unit × GBDState :=
  if 0 ≤ idx ∧ idx < g.block_count then
    if data ≠ [] ∧ (data.length : Int) = g.block_size then
      (.ok (), { g with que := g.que ++ [(idx, some data)] })
    else (.error .assertionError, g)
  else (.error .assertionError, g)

/-! ## Metadata and device open -/

/-- The persisted device metadata record `{version, block_size,
block_count}` (gbd.py lines 214-218), with the JSON transport
abstracted. -/
structure BDAttr where
  version : Int
  block_size : Int
  block_count : Int
deriving Repr, DecidableEq

/-- Abstract serialization of the metadata record into object content
bytes (the source serializes to JSON). -/
def encode_attr (a : BDAttr) : List Nat :=
  [a.version.natAbs, a.block_size.natAbs, a.block_count.natAbs]

/-- Embeds `GBD.init_data_dir` (gbd.py lines 195-227) for a device whose
metadata does not exist yet.  `ver` is the implementation schema version
(`Metadata['version']` from the config module), `bs` and `ts` the block
size and total size taken from the configuration or interactive input.
`total_size < block_size` raises `ValueError` before anything is
persisted; `block_size = 0` raises `ZeroDivisionError` at the floor
division; otherwise the size is truncated down to a multiple of the block
size and the config object is created in the store. -/
def init_data_dir (ver bs ts : Int) (s : Store) : Except PyErr BDAttr × Store :=
  if ts < bs then (.error .valueError, s)
  else if bs = 0 then (.error .zeroDivisionError, s)
  else
    let used : Int := Int.fdiv ts bs * bs
    let attr : BDAttr := { version := ver, block_size := bs, block_count := Int.fdiv used bs }
    (.ok attr, (insertObj s "config" (encode_attr attr)).2)

/-- Embeds `GBD.load_data_dir` (gbd.py lines 177-193), with the remote
config query abstracted as the list of parsed metadata candidates found
under the title `config`: zero candidates initializes the data dir, more
than one is an `AssertionError`, exactly one is version-checked against
the expected schema version (`AssertionError` on mismatch, the spec's
`VersionMismatch`). -/
def load_data_dir (expected : Int) (configItems : List BDAttr) (initBS initTS : Int)
    (s : Store) : Except PyErr BDAttr × Store :=
  match configItems with
  | [] => init_data_dir expected initBS initTS s
  | [bd] => if bd.version ≠ expected then (.error .assertionError, s) else (.ok bd, s)
  | _ => (.error .assertionError, s)

/-- Result of opening the device: either `GBD.__init__` raised before
completing, or it produced a device state and started `workers` worker
threads. -/
inductive OpenOutcome
  | failed (e : PyErr)
  | opened (g : GBDState) (workers : Nat)
deriving Repr, DecidableEq

/-- Embeds the order of `GBD.__init__` (gbd.py lines 90-114):
`load_data_dir` runs at line 99, the geometry, mapping table and queue are
set up at lines 101-105, and only then are the workers started at lines
110-114.  A failure in `load_data_dir` therefore aborts the constructor
before any worker exists and before the device can accept calls. -/
def gbd_open (expected : Int) (configItems : List BDAttr) (initBS initTS : Int)
    (s : Store) (nworkers : Nat) : OpenOutcome :=
  match load_data_dir expected configItems initBS initTS s with
  | (.error e, _) => .failed e
  | (.ok bd, s1) =>
    .opened
      { block_size := bd.block_size
        block_count := bd.block_count
        mapping := List.replicate bd.block_count.toNat none
        store := s1
        lookups := 0
        que := [] }
      nworkers

/-! ## Well-formedness predicates used as hypotheses -/

/-- The store is well formed: object ids are pairwise distinct and all
below the fresh-id counter. -/
def wfStore (s : Store) : Bool :=
  decide (s.objs.map RObj.id).Nodup && s.objs.all (fun o => decide (o.id < s.nextId))

/-- Slot `i` of the mapping table is consistent with the store: a cached
id points at an existing object, and an uncached slot has at most one
object under its deterministic title. -/
def slotOK (g : GBDState) (i : Nat) : Bool :=
  match g.mapping.getD i none with
  | some bid => g.store.objs.any (fun o => o.id == bid)
  | none => decide ((listByTitle g.store (idx_to_name i)).length ≤ 1)

/-- The store resulting from allocating one fresh object (the second
component of `insertObj`). -/
def allocStore (s : Store) (title : String) (data : List Nat) : Store :=
  (insertObj s title data).2

/-- The store resulting from an in-place content update of the objects
with id `bid` (the successful case of `updateObj`). -/
def updStore (s : Store) (bid : Nat) (data : List Nat) : Store :=
  { s with objs := s.objs.map (fun o =>
      if o.id == bid then { o with content := data } else o) }

/-- A small concrete device state (three blocks of two bytes, empty
store) used to instantiate theorems at concrete inputs. -/
def g0 : GBDState :=
  { block_size := 2
    block_count := 3
    mapping := [none, none, none]
    store := { objs := [], nextId := 0 }
    lookups := 0
    que := [] }

/-- The rate-limit error used in concrete instantiations. -/
def rlErr : PyErr := .http 403 "rateLimitExceeded"

/-- A concrete single-block device whose slot 0 is cached as mapped to
object 5. -/
def gMapped : GBDState :=
  { block_size := 2
    block_count := 1
    mapping := [some 5]
    store := { objs := [{ id := 5, title := "gbd_b0", content := [9, 9] }], nextId := 6 }
    lookups := 0
    que := [] }

/-! ## Theorems -/

/-- C2: if the block operation raises a rate-limit error on each of the
first 4 attempts and succeeds on the 5th, `do_request` returns the
successful result, the completion sink receives no error, and exactly 5
attempts are performed in total. -/
theorem c2_retry_then_success {V : Type} (outs : Nat → Attempt V) (v : V)
    (hfail : ∀ n, n < 4 → ∃ e, outs n = .raised e ∧ is_rate_limited e = true)
    (hsucc : outs 4 = .success v) :
    worker_deliver outs = (none, some v) ∧ attempts outs = 5 := by
  obtain ⟨e0, h0, r0⟩ := hfail 0 (by omega)
  obtain ⟨e1, h1, r1⟩ := hfail 1 (by omega)
  obtain ⟨e2, h2, r2⟩ := hfail 2 (by omega)
  obtain ⟨e3, h3, r3⟩ := hfail 3 (by omega)
  constructor
  · simp [worker_deliver, do_request, do_request_go, h0, h1, h2, h3, hsucc, r0, r1, r2, r3]
  · simp [attempts, attempts_go, h0, h1, h2, h3, hsucc, r0, r1, r2, r3]

/-- C2 witness: concrete oracle failing with a rate-limit error on
attempts 0-3 and succeeding with value 7 on attempt 4. -/
theorem c2_retry_then_success_witness :
    worker_deliver (fun n => if n < 4 then Attempt.raised rlErr else .success (7 : Nat))
        = (none, some 7) ∧
    attempts (fun n => if n < 4 then Attempt.raised rlErr else .success (7 : Nat)) = 5 :=
  c2_retry_then_success _ 7
    (fun n hn => ⟨rlErr, by rw [if_pos hn], by decide⟩)
    (by decide)

/-- C1 divergence: when every attempt raises a rate-limit error, the
retry loop of `do_request` falls off the end and returns Python `None`,
so the completion sink is invoked with `(None, None)` — a success outcome
with no data — instead of receiving the error. -/
theorem c1_exhaustion_delivers_success :
    worker_deliver (V := Nat) (fun _ => Attempt.raised rlErr) = (none, none) := by
  decide

/-- C8: for every attempt number and every possible draw of
`random.randint(0, 999)`, the Python 2 floor division by 1000 makes the
jitter term zero, so the delay slept is exactly `2 ^ rnd` base units —
the jitter is degenerate, not a sub-unit uniform random quantity. -/
theorem c8_backoff_jitter_degenerate (rnd r : Nat) (h : r ≤ 999) :
    backoff_delay rnd r = 2 ^ rnd := by
  unfold backoff_delay
  have hz : r / 1000 = 0 := Nat.div_eq_of_lt (by omega)
  omega

/-- C8 witness: the largest possible draw still yields zero jitter. -/
theorem c8_backoff_jitter_degenerate_witness : backoff_delay 3 999 = 2 ^ 3 :=
  c8_backoff_jitter_degenerate 3 999 (by decide)

/-- C9: a persisted metadata record whose version differs from the
expected schema version makes the device open fail with the version
mismatch assertion, producing no device state and starting no worker. -/
theorem c9_version_mismatch_blocks_open (expected : Int) (bd : BDAttr)
    (initBS initTS : Int) (s : Store) (n : Nat) (h : bd.version ≠ expected) :
    gbd_open expected [bd] initBS initTS s n = .failed .assertionError ∧
    ∀ g w, gbd_open expected [bd] initBS initTS s n ≠ .opened g w := by
  have hf : gbd_open expected [bd] initBS initTS s n = .failed .assertionError := by
    simp [gbd_open, load_data_dir, h]
  exact ⟨hf, by simp [hf]⟩

/-- C9 witness: version 2 against expected version 1. -/
theorem c9_version_mismatch_blocks_open_witness :
    gbd_open 1 [{ version := 2, block_size := 4, block_count := 4 }] 4 16
        { objs := [], nextId := 0 } 8 = .failed .assertionError ∧
    ∀ g w, gbd_open 1 [{ version := 2, block_size := 4, block_count := 4 }] 4 16
        { objs := [], nextId := 0 } 8 ≠ .opened g w :=
  c9_version_mismatch_blocks_open 1 _ 4 16 _ 8 (by decide)

/-- C10: during first-time initialization, a total size strictly smaller
than the block size raises `ValueError` and leaves the store unchanged —
no metadata object is persisted. -/
theorem c10_total_smaller_than_block (ver bs ts : Int) (s : Store) (h : ts < bs) :
    init_data_dir ver bs ts s = (.error .valueError, s) := by
  simp [init_data_dir, h]

/-- C10 witness: total size 3 with block size 4. -/
theorem c10_total_smaller_than_block_witness :
    init_data_dir 1 4 3 { objs := [], nextId := 0 } =
      (.error .valueError, { objs := [], nextId := 0 }) :=
  c10_total_smaller_than_block 1 4 3 _ (by decide)

/-- C7: a write whose index is out of bounds or whose payload length
differs from the block size fails the assertion with the device state
(queue included) unchanged, and a read with an out-of-bounds index does
likewise — so nothing is enqueued and no remote call is made. -/
theorem c7_boundary_rejected (g : GBDState) (idx : Int) (data : List Nat)
    (hbad : ¬(0 ≤ idx ∧ idx < g.block_count) ∨ (data.length : Int) ≠ g.block_size) :
    gbd_write_block g idx data = (.error .assertionError, g) ∧
    (¬(0 ≤ idx ∧ idx < g.block_count) → gbd_read_block g idx = (.error .assertionError, g)) := by
  constructor
  · rcases hbad with h | h
    · simp [gbd_write_block, h]
    · by_cases hb : 0 ≤ idx ∧ idx < g.block_count
      · simp [gbd_write_block, hb, h]
      · simp [gbd_write_block, hb]
  · intro h
    simp [gbd_read_block, h]

/-- C7 witness: index 5 on a three-block device is rejected by both
paths with the state unchanged. -/
theorem c7_boundary_rejected_witness :
    gbd_write_block g0 5 [1, 2] = (.error .assertionError, g0) ∧
    gbd_read_block g0 5 = (.error .assertionError, g0) :=
  ⟨(c7_boundary_rejected g0 5 [1, 2] (Or.inl (by decide))).1,
   (c7_boundary_rejected g0 5 [1, 2] (Or.inl (by decide))).2 (by decide)⟩

/-- C5: resolving an untouched in-bounds slot classifies the store
correctly: exactly one object under the block title is reported mapped
with that object's id and cached; zero matches is reported unmapped with
the mapping left untouched; two or more matches raise the assertion (the
spec's `AmbiguousState`) and cache no mapping. -/
theorem c5_resolve_classifies (g : GBDState) (idx : Int)
    (h0 : 0 ≤ idx) (h1 : idx < g.block_count)
    (hm : g.mapping.getD idx.toNat none = none) :
    (∀ o, listByTitle g.store (idx_to_name idx.toNat) = [o] →
       block_id g idx = (.ok (some o.id),
         { g with mapping := g.mapping.set idx.toNat (some o.id),
                  lookups := g.lookups + 1 })) ∧
    (listByTitle g.store (idx_to_name idx.toNat) = [] →
       block_id g idx = (.ok none, { g with lookups := g.lookups + 1 })) ∧
    (2 ≤ (listByTitle g.store (idx_to_name idx.toNat)).length →
       (block_id g idx).1 = .error .assertionError ∧
       (block_id g idx).2.mapping = g.mapping) := by
  have hnb : ¬(g.block_count ≤ idx ∨ idx < 0) := by omega
  simp only [List.getD_eq_getElem?_getD] at hm
  refine ⟨?_, ?_, ?_⟩
  · intro o ho
    simp [block_id, hnb, hm, ho]
  · intro ho
    simp [block_id, hnb, hm, ho]
  · intro hlen
    rcases hl : listByTitle g.store (idx_to_name idx.toNat) with _ | ⟨a, _ | ⟨b, t⟩⟩
    · rw [hl] at hlen
      simp at hlen
    · rw [hl] at hlen
      simp at hlen
    · constructor <;> simp [block_id, hnb, hm, hl]

/-- C5 witness: an untouched slot with no matching object is reported
unmapped. -/
theorem c5_resolve_classifies_witness :
    block_id g0 0 = (.ok none, { g0 with lookups := g0.lookups + 1 }) :=
  (c5_resolve_classifies g0 0 (by decide) (by decide) (by decide)).2.1 (by decide)

/-- C6 counterexample: the claim that a resolution is cached so that no
later touch repeats the remote lookup is false for a slot that resolves
to unmapped — on the fresh device `g0`, the first touch of slot 0
performs one remote lookup and the second touch performs another. -/
theorem c6_unmapped_lookup_repeats :
    (block_id g0 0).2.lookups = 1 ∧
    (block_id (block_id g0 0).2 0).2.lookups = 2 := by
  decide

/-- C6 amended: a slot cached as mapped is returned without any remote
lookup or state change, while a slot that resolves to unmapped is left
uncached (`None` doubles as unknown) and each touch of it performs a
remote lookup. -/
theorem c6_mapped_resolution_cached (g : GBDState) (idx : Int) (bid : Nat)
    (h0 : 0 ≤ idx) (h1 : idx < g.block_count) :
    (g.mapping.getD idx.toNat none = some bid →
       block_id g idx = (.ok (some bid), g)) ∧
    (g.mapping.getD idx.toNat none = none →
       listByTitle g.store (idx_to_name idx.toNat) = [] →
       block_id g idx = (.ok none, { g with lookups := g.lookups + 1 })) := by
  have hnb : ¬(g.block_count ≤ idx ∨ idx < 0) := by omega
  constructor
  · intro hm
    simp only [List.getD_eq_getElem?_getD] at hm
    simp [block_id, hnb, hm]
  · intro hm hno
    simp only [List.getD_eq_getElem?_getD] at hm
    simp [block_id, hnb, hm, hno]

/-- C6 witness: the cached mapped slot of `gMapped` resolves with no
state change, and the unmapped slot of `g0` bumps the lookup counter. -/
theorem c6_mapped_resolution_cached_witness :
    block_id gMapped 0 = (.ok (some 5), gMapped) ∧
    block_id g0 1 = (.ok none, { g0 with lookups := g0.lookups + 1 }) :=
  ⟨(c6_mapped_resolution_cached gMapped 0 5 (by decide) (by decide)).1 (by decide),
   (c6_mapped_resolution_cached g0 1 0 (by decide) (by decide)).2 (by decide) (by decide)⟩

/-- C3: reading an in-bounds block that was never written (untouched
slot, no object under its title) returns exactly `block_size` zero
bytes, and the store is unchanged — no remote object is created. -/
theorem c3_unwritten_reads_zero (g : GBDState) (idx : Int)
    (h0 : 0 ≤ idx) (h1 : idx < g.block_count) (hbs : 0 ≤ g.block_size)
    (hm : g.mapping.getD idx.toNat none = none)
    (hno : listByTitle g.store (idx_to_name idx.toNat) = []) :
    wread_block g idx = (.ok (List.replicate g.block_size.toNat 0),
        { g with lookups := g.lookups + 1 }) ∧
    (wread_block g idx).2.store = g.store ∧
    ((List.replicate g.block_size.toNat 0).length : Int) = g.block_size := by
  have hnb : ¬(g.block_count ≤ idx ∨ idx < 0) := by omega
  simp only [List.getD_eq_getElem?_getD] at hm
  have hb : block_id g idx = (.ok none, { g with lookups := g.lookups + 1 }) := by
    simp [block_id, hnb, hm, hno]
  refine ⟨?_, ?_, ?_⟩
  · simp [wread_block, hb]
  · simp [wread_block, hb]
  · simp
    omega

/-- C3 witness: reading block 0 of the fresh device `g0` yields two zero
bytes and creates nothing. -/
theorem c3_unwritten_reads_zero_witness :
    wread_block g0 0 = (.ok (List.replicate g0.block_size.toNat 0),
        { g0 with lookups := g0.lookups + 1 }) ∧
    (wread_block g0 0).2.store = g0.store ∧
    ((List.replicate g0.block_size.toNat 0).length : Int) = g0.block_size :=
  c3_unwritten_reads_zero g0 0 (by decide) (by decide) (by decide) (by decide) (by decide)

/-- Getting an element just set returns the new value. -/
theorem getD_set_self (l : List (Option Nat)) (i : Nat) (v : Option Nat)
    (h : i < l.length) : (l.set i v).getD i none = v := by
  induction l generalizing i with
  | nil => simp at h
  | cons a t ih =>
    cases i with
    | zero => rfl
    | succ n =>
      show (t.set n v).getD n none = v
      exact ih n (by simp at h; omega)

/-- Updating the content of the objects with id `bid` and then looking the
id up finds content `data`, provided some object carries that id. -/
theorem find_update_content (objs : List RObj) (bid : Nat) (data : List Nat)
    (h : objs.any (fun o => o.id == bid) = true) :
    ((objs.map (fun o => if o.id == bid then { o with content := data } else o)).find?
        (fun o => o.id == bid)).map RObj.content = some data := by
  induction objs with
  | nil => simp at h
  | cons a t ih =>
    by_cases ha : a.id = bid
    · rw [List.map_cons, if_pos (by simp [ha]), List.find?_cons_of_pos _ (by simp [ha])]
      rfl
    · have ha2 : (a.id == bid) = false := beq_eq_false_iff_ne.mpr ha
      simp only [List.any_cons, ha2, Bool.false_or] at h
      rw [List.map_cons, if_neg (by simp [ha]), List.find?_cons_of_neg _ (by simp [ha])]
      exact ih h

/-- A find over a list extended with a fresh object matching the
predicate, when nothing in the original list matches, returns the fresh
object. -/
theorem find_append_fresh (objs : List RObj) (x : RObj) (p : RObj → Bool)
    (h : ∀ o ∈ objs, p o = false) (hx : p x = true) :
    (objs ++ [x]).find? p = some x := by
  induction objs with
  | nil => simp [List.find?_cons, hx]
  | cons a t ih =>
    have ha := h a (by simp)
    simp only [List.cons_append, List.find?_cons, ha]
    exact ih (fun o ho => h o (by simp [ho]))

/-- C4: on a consistent device state, writing a payload of exactly
`block_size` bytes to a valid index and then reading that index returns
the payload exactly, whether the slot was previously mapped, resolves to
an existing object, or is unmapped (in which case a fresh object is
allocated). -/
theorem c4_write_then_read (g : GBDState) (idx : Int) (data : List Nat)
    (h0 : 0 ≤ idx) (h1 : idx < g.block_count)
    (hml : (g.mapping.length : Int) = g.block_count)
    (hwf : wfStore g.store = true)
    (hs : slotOK g idx.toNat = true)
    (hd : (data.length : Int) = g.block_size) :
    ∃ r g1, wwrite_block g idx data = (.ok r, g1) ∧
      (wread_block g1 idx).1 = .ok data := by
  have hnb : ¬(g.block_count ≤ idx ∨ idx < 0) := by omega
  have hi : idx.toNat < g.mapping.length := by omega
  have hwf2 := hwf
  simp only [wfStore, Bool.and_eq_true, decide_eq_true_eq, List.all_eq_true] at hwf2
  obtain ⟨hnd, hlt⟩ := hwf2
  rcases hq : g.mapping.getD idx.toNat none with _ | bid
  all_goals have hm2 := hq
  all_goals simp only [List.getD_eq_getElem?_getD] at hm2
  · -- slot untouched: resolve against the store
    have hs2 : (listByTitle g.store (idx_to_name idx.toNat)).length ≤ 1 := by
      simpa [slotOK, hm2] using hs
    rcases hl : listByTitle g.store (idx_to_name idx.toNat) with _ | ⟨o, _ | ⟨b, t⟩⟩
    · -- no backing object: the write allocates a fresh one
      have hbid : block_id g idx = (.ok none, { g with lookups := g.lookups + 1 }) := by
        simp [block_id, hnb, hm2, hl]
      have hw : wwrite_block g idx data =
          (.ok g.store.nextId,
           { g with lookups := g.lookups + 1,
                    store := allocStore g.store (idx_to_name idx.toNat) data,
                    mapping := g.mapping.set idx.toNat (some g.store.nextId) }) := by
        simp [wwrite_block, hd, hbid, new_block, hnb, hm2, allocStore, insertObj]
      refine ⟨g.store.nextId, _, hw, ?_⟩
      have hset := getD_set_self g.mapping idx.toNat (some g.store.nextId) hi
      simp only [List.getD_eq_getElem?_getD] at hset
      have hbid2 : block_id
          { g with lookups := g.lookups + 1,
                   store := allocStore g.store (idx_to_name idx.toNat) data,
                   mapping := g.mapping.set idx.toNat (some g.store.nextId) } idx =
          (.ok (some g.store.nextId),
           { g with lookups := g.lookups + 1,
                    store := allocStore g.store (idx_to_name idx.toNat) data,
                    mapping := g.mapping.set idx.toNat (some g.store.nextId) }) := by
        simp [block_id, hnb, hset]
      have hfind := find_append_fresh g.store.objs
          { id := g.store.nextId, title := idx_to_name idx.toNat, content := data }
          (fun o => o.id == g.store.nextId)
          (fun o ho => beq_eq_false_iff_ne.mpr (Nat.ne_of_lt (hlt o ho)))
          (by simp)
      have hmedia : getMedia (allocStore g.store (idx_to_name idx.toNat) data)
          g.store.nextId = some data := by
        simp [getMedia, allocStore, insertObj, hfind]
      simp [wread_block, hbid2, hmedia, hd]
    · -- exactly one backing object: the write updates it in place
      have ho : o ∈ g.store.objs := by
        have hmem : o ∈ listByTitle g.store (idx_to_name idx.toNat) := by
          rw [hl]
          exact List.mem_singleton_self o
        simp only [listByTitle, List.mem_filter] at hmem
        exact hmem.1
      have hany : g.store.objs.any (fun x => x.id == o.id) = true :=
        List.any_eq_true.mpr ⟨o, ho, by simp⟩
      have hbid : block_id g idx = (.ok (some o.id),
          { g with mapping := g.mapping.set idx.toNat (some o.id),
                   lookups := g.lookups + 1 }) := by
        simp [block_id, hnb, hm2, hl]
      have hupd : updateObj g.store o.id data = some (updStore g.store o.id data) := by
        simp [updateObj, updStore, hany]
      have hw : wwrite_block g idx data = (.ok o.id,
          { g with mapping := g.mapping.set idx.toNat (some o.id),
                   lookups := g.lookups + 1,
                   store := updStore g.store o.id data }) := by
        simp [wwrite_block, hd, hbid, hupd]
      refine ⟨o.id, _, hw, ?_⟩
      have hset := getD_set_self g.mapping idx.toNat (some o.id) hi
      simp only [List.getD_eq_getElem?_getD] at hset
      have hbid2 : block_id
          { g with mapping := g.mapping.set idx.toNat (some o.id),
                   lookups := g.lookups + 1,
                   store := updStore g.store o.id data } idx =
          (.ok (some o.id),
           { g with mapping := g.mapping.set idx.toNat (some o.id),
                    lookups := g.lookups + 1,
                    store := updStore g.store o.id data }) := by
        simp [block_id, hnb, hset]
      have hmedia : getMedia (updStore g.store o.id data) o.id = some data := by
        simpa [getMedia, updStore] using find_update_content g.store.objs o.id data hany
      simp [wread_block, hbid2, hmedia, hd]
    · -- duplicate titles contradict slot consistency
      rw [hl] at hs2
      simp at hs2
  · -- slot cached as mapped: the write updates the cached object
    have hany : g.store.objs.any (fun o => o.id == bid) = true := by
      simpa [slotOK, hm2] using hs
    have hbid : block_id g idx = (.ok (some bid), g) := by
      simp [block_id, hnb, hm2]
    have hupd : updateObj g.store bid data = some (updStore g.store bid data) := by
      simp [updateObj, updStore, hany]
    have hw : wwrite_block g idx data = (.ok bid,
        { g with store := updStore g.store bid data }) := by
      simp [wwrite_block, hd, hbid, hupd]
    refine ⟨bid, _, hw, ?_⟩
    have hbid2 : block_id { g with store := updStore g.store bid data } idx =
        (.ok (some bid), { g with store := updStore g.store bid data }) := by
      simp [block_id, hnb, hm2]
    have hmedia : getMedia (updStore g.store bid data) bid = some data := by
      simpa [getMedia, updStore] using find_update_content g.store.objs bid data hany
    simp [wread_block, hbid2, hmedia, hd]

/-- C4 witness: writing bytes `[5, 6]` to block 0 of the fresh device
`g0` and reading block 0 back returns `[5, 6]`. -/
theorem c4_write_then_read_witness :
    ∃ r g1, wwrite_block g0 0 [5, 6] = (.ok r, g1) ∧
      (wread_block g1 0).1 = .ok [5, 6] :=
  c4_write_then_read g0 0 [5, 6] (by decide) (by decide) (by decide) (by decide)
    (by decide) (by decide)

end GBDSpec
